import Mathlib

/-!
Shallow embedding of `src/OmsAgent/Fairfax/omsagent_ff.py` (a Python 2
program).  The two cores modelled here are the command retry engine
(`run_command_with_retries` and its retry / final policies) and the
connection-conflict detector (`detect_multiple_connections`,
`detect_scom_connection` and the layered SCOM probes), together with the
parameter validation used by `enable` (`check_workspace_id_and_key`).

Conventions of the embedding:
* a Python byte string (py2 `str`) coming back from a shell command is a
  `List Nat` of byte values; decoded text is `List Char`;
* raising an exception is `Except`/`Outcome.raised`; `log_and_exit`
  (which ends the process via `sys.exit`) is `Outcome.exited`;
* the filesystem and the shell are explicit parameters: an environment
  record carries, for each `os.path.exists` test a `Bool`, and for each
  executed command the `(exit code, raw output bytes)` the execution
  facility would report for it.
-/

/-- Exceptions of the program that are distinguished by `main`'s
`except` clauses.  `multipleConnections` carries its message, because the
two raise sites (`detect_multiple_connections` and
`detect_scom_connection`) use different messages.
`unicodeDecodeError` models the py2 `UnicodeDecodeError` raised by
`output.encode('utf-8')` on non-ASCII bytes; it is caught only by the
generic `except Exception` clause. -/
inductive PyExc where
  | parameterMissing
  | invalidParameter
  | multipleConnections (msg : List Char)
  | cannotConnectToOMS
  | unicodeDecodeError
  deriving DecidableEq, Repr

/-- Result of running a piece of the program: normal return value,
a propagating exception, or a process exit via `log_and_exit`. -/
inductive Outcome (α : Type) where
  | ok (a : α)
  | raised (e : PyExc)
  | exited (code : Int)
  deriving DecidableEq, Repr

def Outcome.bind {α β : Type} : Outcome α → (α → Outcome β) → Outcome β
  | .ok a, f => f a
  | .raised e, _ => .raised e
  | .exited c, _ => .exited c

/-! ### Error codes (module-level constants of the source) -/

def DPKGLockedErrorCode : Int := 12
def InstallErrorCurlNotInstalled : Int := 64
def EnableCalledBeforeSuccessfulInstall : Int := 20
def EnableErrorOMSReturned403 : Int := 5
def EnableErrorOMSReturnedNon200 : Int := 6
def EnableErrorResolvingHost : Int := 7
def UnsupportedOpenSSL : Int := 60
def SCOMPort : Nat := 1270

/-! ### Python string primitives used by the source -/

/-- Python's whitespace set for `str.strip()` and the regex class `\s`:
space, tab, newline, carriage return, vertical tab, form feed. -/
def py_isspace (c : Char) : Bool :=
  c = ' ' || c = '\t' || c = '\n' || c = '\x0d' || c = '\x0b' || c = '\x0c'

/-- `str.strip()`: drop leading and trailing whitespace. -/
def stripL (cs : List Char) : List Char :=
  ((cs.dropWhile py_isspace).reverse.dropWhile py_isspace).reverse

/-- `str.lower()` (the strings involved are ASCII). -/
def lowerL (cs : List Char) : List Char := cs.map Char.toLower

/-- `haystack` contains `pat` as a contiguous substring
(Python's `pat in haystack`). -/
def containsSub (pat : List Char) : List Char → Bool
  | [] => pat.isEmpty
  | c :: cs => pat.isPrefixOf (c :: cs) || containsSub pat cs

/-- `str.split('\n')`: always at least one (possibly empty) piece. -/
def splitLines : List Char → List (List Char)
  | [] => [[]]
  | c :: cs =>
    if c = '\n' then [] :: splitLines cs
    else match splitLines cs with
      | [] => [[c]]
      | l :: ls => (c :: l) :: ls

/-! ### `run_get_output`

`run_get_output` returns `exit_code, output.encode('utf-8').strip()`.
In Python 2, calling `.encode('utf-8')` on a byte string first decodes
it with the ASCII codec, so any byte above 127 in the command output
raises a `UnicodeDecodeError`; otherwise the bytes come through
unchanged and are stripped. -/
def run_get_output (res : Int × List Nat) : Except PyExc (Int × List Char) :=
  if res.2.all (fun b => b ≤ 127) then
    .ok (res.1, stripL (res.2.map Char.ofNat))
  else
    .error .unicodeDecodeError

/-! ### The retry engine

```python
try_count = 0
sleep_time = initial_sleep_time
while try_count <= retries:
    exit_code, output = run_command_and_log(cmd, check_error, log_cmd)
    should_retry, retry_message = retry_check(exit_code, output)
    if not should_retry:
        break
    try_count += 1
    hutil_log_info(retry_message)
    time.sleep(sleep_time)
    sleep_time *= sleep_increase_factor
if final_check is not None:
    exit_code = final_check(exit_code, output)
return exit_code
```

The loop is embedded with `remaining = retries + 1 - try_count` as the
decreasing measure: the `while` guard `try_count <= retries` is exactly
`remaining > 0`, and each `try_count += 1` decrements `remaining`.
`exec k` is the `(exit code, raw bytes)` the execution facility reports
for the k-th execution of the command.  Besides the loop's final
`(exit_code, output)` the embedding counts how many times the command
was executed and how many times `time.sleep` ran. -/
def run_retries_go (exec : Nat → Int × List Nat)
    (retry_check : Int → List Char → Bool × List Char) :
    Nat → Nat → (Int × List Char) → Nat → Nat →
    Except PyExc ((Int × List Char) × Nat × Nat)
  | 0, _, last, execs, sleeps => .ok (last, execs, sleeps)
  | remaining + 1, idx, _, execs, sleeps =>
    match run_get_output (exec idx) with
    | .error err => .error err
    | .ok res =>
      if (retry_check res.1 res.2).1 then
        run_retries_go exec retry_check remaining (idx + 1) res
          (execs + 1) (sleeps + 1)
      else
        .ok (res, execs + 1, sleeps)

/-- Exit code of the engine together with the instrumentation counts. -/
structure RunStats where
  exit_code : Int
  execs : Nat
  sleeps : Nat
  deriving DecidableEq, Repr

/-- `run_command_with_retries(cmd, retries, retry_check, final_check)`.
The final check may raise (`raise_if_no_internet` does), hence its
`Except` result type; a plain final check is wrapped by `pure_final`. -/
def run_command_with_retries (exec : Nat → Int × List Nat) (retries : Nat)
    (retry_check : Int → List Char → Bool × List Char)
    (final_check : Option (Int → List Char → Except PyExc Int)) :
    Except PyExc RunStats :=
  match run_retries_go exec retry_check (retries + 1) 0 (0, []) 0 0 with
  | .error e => .error e
  | .ok ((ec, out), execs, sleeps) =>
    match final_check with
    | none => .ok ⟨ec, execs, sleeps⟩
    | some f =>
      match f ec out with
      | .error e => .error e
      | .ok ec2 => .ok ⟨ec2, execs, sleeps⟩

/-- Wrap an exception-free final check. -/
def pure_final (f : Int → List Char → Int) :
    Int → List Char → Except PyExc Int :=
  fun ec out => .ok (f ec out)

/-! ### Retry and final policies -/

/-- One line matches `.*dpkg.+lock.*` (no anchors needed per line: the
leading `.*` and trailing `.*` are unconstrained): the line has an
occurrence of `dpkg` followed, with at least one character in between
(the `.+`), by an occurrence of `lock`. -/
def dpkg_line_match : List Char → Bool
  | [] => false
  | c :: cs =>
    (("dpkg".toList).isPrefixOf (c :: cs)
      && containsSub ("lock".toList) (cs.drop 4))
    || dpkg_line_match cs

/-- `re.compile(r'^.*dpkg.+lock.*$', re.M).search(output)` succeeds:
with `re.M` and `.` not matching newlines this is exactly "some line
matches". -/
def dpkg_lock_output_match (out : List Char) : Bool :=
  (splitLines out).any dpkg_line_match

/-- `is_dpkg_locked(exit_code, output)`: nonzero exit code and the
output matches the dpkg-lock pattern. -/
def is_dpkg_locked (exit_code : Int) (output : List Char) : Bool :=
  if exit_code ≠ 0 then dpkg_lock_output_match output else false

/-- `final_check_if_dpkg_locked(exit_code, output)`. -/
def final_check_if_dpkg_locked (exit_code : Int) (output : List Char) : Int :=
  if is_dpkg_locked exit_code output then DPKGLockedErrorCode else exit_code

/-- `retry_onboarding(exit_code, output)`. -/
def retry_onboarding (exit_code : Int) (_output : List Char) :
    Bool × List Char :=
  if exit_code = EnableErrorOMSReturned403 then
    (true, ("Retrying the onboarding command to attempt generating "
            ++ "a new agent ID and certificate.").toList)
  else if exit_code = EnableErrorOMSReturnedNon200 then
    (true, ("Retrying; the OMS service may be temporarily "
            ++ "unavailable.").toList)
  else (false, [])

/-- `raise_if_no_internet(exit_code, output)`: raises
`OMSAgentCannotConnectToOMSException` on the host-unresolvable exit
code, returns the exit code unchanged otherwise. -/
def raise_if_no_internet (exit_code : Int) (_output : List Char) :
    Except PyExc Int :=
  if exit_code = EnableErrorResolvingHost then .error .cannotConnectToOMS
  else .ok exit_code

/-- The `except` clauses of `main`: which process exit code each
exception is mapped to.  `unicodeDecodeError` is caught only by the
generic `except Exception` clause (exit code 1). -/
def main_exception_exit_code : PyExc → Int
  | .parameterMissing => 11
  | .invalidParameter => 11
  | .multipleConnections _ => 10
  | .cannotConnectToOMS => 55
  | .unicodeDecodeError => 1

/-! ### GUID matching (`GUIDRegex`, `GUIDOnlyRegex`) -/

/-- `[0-9a-fA-F]`. -/
def isHexDigit (c : Char) : Bool :=
  ('0' ≤ c && c ≤ '9') || ('a' ≤ c && c ≤ 'f') || ('A' ≤ c && c ≤ 'F')

/-- Consume exactly `n` hex digits, returning the rest of the input. -/
def hexRun : Nat → List Char → Option (List Char)
  | 0, cs => some cs
  | _ + 1, [] => none
  | n + 1, c :: cs => if isHexDigit c then hexRun n cs else none

/-- Consume a literal dash. -/
def dashRun : List Char → Option (List Char)
  | [] => none
  | c :: cs => if c = '-' then some cs else none

/-- Consume `GUIDRegex`: hex runs of 8-4-4-4-12 separated by dashes. -/
def guid_consume (cs : List Char) : Option (List Char) :=
  (hexRun 8 cs).bind fun r1 =>
  (dashRun r1).bind fun r2 =>
  (hexRun 4 r2).bind fun r3 =>
  (dashRun r3).bind fun r4 =>
  (hexRun 4 r4).bind fun r5 =>
  (dashRun r5).bind fun r6 =>
  (hexRun 4 r6).bind fun r7 =>
  (dashRun r7).bind fun r8 =>
  hexRun 12 r8

/-- `re.compile(GUIDOnlyRegex, re.M).match(s)` succeeds: a GUID at the
start of the string, with `$` (under `re.M`) matching at the end of the
string or just before a newline. -/
def guid_only_match (cs : List Char) : Bool :=
  match guid_consume cs with
  | some rest => rest = [] || rest.head? = some '\n'
  | none => false

/-! ### Base64 (`base64.b64decode` / `base64.b64encode` of Python 2)

`check_workspace_id_and_key` validates the workspace key with
`base64.b64encode(base64.b64decode(workspace_key)) == workspace_key`.
Python 2's `b64decode` calls `binascii.a2b_base64` and turns its
`binascii.Error` (raised as "Incorrect padding" when the data bits do
not close a byte boundary) into a `TypeError`, which the caller
catches.  `a2b_base64` skips characters outside the base64 alphabet,
treats `=` as terminating padding only when at least two characters of
the current quad have been seen (for exactly two, only when the next
valid character is another `=`), and ignores `=` otherwise. -/

def b64_char_value (c : Char) : Option Nat :=
  if 'A' ≤ c && c ≤ 'Z' then some (c.toNat - 65)
  else if 'a' ≤ c && c ≤ 'z' then some (c.toNat - 97 + 26)
  else if '0' ≤ c && c ≤ '9' then some (c.toNat - 48 + 52)
  else if c = '+' then some 62
  else if c = '/' then some 63
  else none

/-- A character `binascii_find_valid` counts as valid: an alphabet
character or the pad `=` (the pad has a table entry). -/
def b64_valid_char (c : Char) : Bool :=
  c = '=' || (b64_char_value c).isSome

/-- First valid character of the remaining input, used for the
lookahead that decides whether `=` after two quad characters is a
genuine pad sequence. -/
def firstValidChar : List Char → Option Char
  | [] => none
  | c :: cs => if b64_valid_char c then some c else firstValidChar cs

/-- The decode loop of `binascii.a2b_base64`: `quad_pos` counts
characters of the current 4-character group, `leftchar`/`leftbits` hold
the accumulated bits.  Returns `none` for the "Incorrect padding"
error (bits left over at end of input). -/
def a2b_base64_go (quad_pos leftbits leftchar : Nat) :
    List Char → Option (List Nat)
  | [] => if leftbits = 0 then some [] else none
  | c :: cs =>
    if c = '=' then
      if quad_pos = 3 || (quad_pos = 2 && firstValidChar cs = some '=') then
        some []
      else
        a2b_base64_go quad_pos leftbits leftchar cs
    else
      match b64_char_value c with
      | none => a2b_base64_go quad_pos leftbits leftchar cs
      | some v =>
        let leftchar2 := leftchar * 64 + v
        let leftbits2 := leftbits + 6
        if leftbits2 ≥ 8 then
          (a2b_base64_go ((quad_pos + 1) % 4) (leftbits2 - 8)
              (leftchar2 % 2 ^ (leftbits2 - 8)) cs).map
            (fun bs => (leftchar2 / 2 ^ (leftbits2 - 8)) % 256 :: bs)
        else
          a2b_base64_go ((quad_pos + 1) % 4) leftbits2 leftchar2 cs

/-- `base64.b64decode` on a py2 byte string; `none` models the
`TypeError` the caller catches. -/
def b64decode_py2 (key : List Char) : Option (List Nat) :=
  a2b_base64_go 0 0 0 key

def b64_alphabet : List Char :=
  ("ABCDEFGHIJKLMNOPQRSTUVWXYZabcdefghijklmnopqrstuvwxyz"
   ++ "0123456789+/").toList

def b64_char_at (n : Nat) : Char := b64_alphabet.getD n 'A'

/-- `base64.b64encode`: canonical encoding, three bytes to four
characters, `=`-padded.  Bytes are taken mod 256. -/
def b64encode : List Nat → List Char
  | [] => []
  | [a] =>
    let a := a % 256
    [b64_char_at (a / 4), b64_char_at (a % 4 * 16), '=', '=']
  | [a, b] =>
    let a := a % 256
    let b := b % 256
    [b64_char_at (a / 4), b64_char_at (a % 4 * 16 + b / 16),
     b64_char_at (b % 16 * 4), '=']
  | a :: b :: c :: rest =>
    let a := a % 256
    let b := b % 256
    let c := c % 256
    b64_char_at (a / 4) :: b64_char_at (a % 4 * 16 + b / 16) ::
      b64_char_at (b % 16 * 4 + c / 64) :: b64_char_at (c % 64) ::
      b64encode rest

/-! ### Workspace parameter validation -/

/-- `check_workspace_id(workspace_id)`. -/
def check_workspace_id (workspace_id : List Char) : Except PyExc Unit :=
  if guid_only_match workspace_id then .ok ()
  else .error .invalidParameter

/-- `check_workspace_id_and_key(workspace_id, workspace_key)`: the
GUID check, then the base64 round-trip check; a decoding `TypeError`
is caught and re-raised as `OMSAgentInvalidParameterError`
(`.invalidParameter`). -/
def check_workspace_id_and_key (workspace_id workspace_key : List Char) :
    Except PyExc Unit :=
  match check_workspace_id workspace_id with
  | .error e => .error e
  | .ok () =>
    match b64decode_py2 workspace_key with
    | none => .error .invalidParameter
    | some bs =>
      if b64encode bs = workspace_key then .ok ()
      else .error .invalidParameter

/-! ### Connection conflict detector -/

/-- Split on an arbitrary separator character (Python `str.split(sep)`,
keeping empty pieces). -/
def splitOnCharL (sep : Char) : List Char → List (List Char)
  | [] => [[]]
  | c :: cs =>
    if c = sep then [] :: splitOnCharL sep cs
    else match splitOnCharL sep cs with
      | [] => [[c]]
      | l :: ls => (c :: l) :: ls

/-- The host environment the detector inspects: which files exist and
what each probe command reports (`(exit code, raw output bytes)`). -/
structure Env where
  /-- `os.path.exists(OMSAdminPath)` -/
  omsadmin_exists : Bool
  /-- result of `omsadmin.sh -l` (`WorkspaceCheckCommand`) -/
  workspace_check : Int × List Nat
  /-- the sub-directory names `os.walk(EtcOMSAgentPath)` yields -/
  etc_oms_subdirs : List (List Char)
  /-- result of `omsadmin.sh -o` -/
  omsadmin_probe : Int × List Nat
  /-- `os.path.exists(OMIConfigEditorPath)` -/
  omiconfigeditor_exists : Bool
  /-- `os.path.exists(OMIServerConfPath)` -/
  omiserverconf_exists : Bool
  /-- result of `omiconfigeditor httpsport -q 1270 < omiserver.conf` -/
  omiconfig_probe : Int × List Nat
  /-- text of `/etc/opt/omi/conf/omiserver.conf` -/
  omiserver_conf : List Char
  /-- `os.path.exists(SCOMCertPath)` -/
  scomcert_exists : Bool
  /-- result of `which openssl` -/
  which_openssl : Int × List Nat
  /-- result of `openssl x509 -in scx.pem -noout -text` -/
  cert_probe : Int × List Nat

/-- `detect_scom_using_omsadmin()`: `True` only when the output shows
neither `illegal option` nor `unknown option` and the exit code is 0;
`False` in every other case (there is no inconclusive answer). -/
def detect_scom_using_omsadmin (env : Env) : Except PyExc Bool :=
  match run_get_output env.omsadmin_probe with
  | .error e => .error e
  | .ok (exit_code, output) =>
    if !(containsSub ("illegal option".toList) (lowerL output)
        || containsSub ("unknown option".toList) (lowerL output)) then
      if exit_code = 0 then .ok true else .ok false
    else .ok false

/-- `detect_scom_using_omiconfigeditor()`: same guard and shape as the
`omsadmin` probe, over the `omiconfigeditor` invocation. -/
def detect_scom_using_omiconfigeditor (env : Env) : Except PyExc Bool :=
  match run_get_output env.omiconfig_probe with
  | .error e => .error e
  | .ok (exit_code, output) =>
    if !(containsSub ("illegal option".toList) (lowerL output)
        || containsSub ("unknown option".toList) (lowerL output)) then
      if exit_code = 0 then .ok true else .ok false
    else .ok false

/-- A line matching `^[\s]*httpsport[\s]*=(.*)$` under `re.M`; returns
the captured group (the rest of the line after `=`). -/
def parse_httpsport_line (line : List Char) : Option (List Char) :=
  let l1 := line.dropWhile py_isspace
  if ("httpsport".toList).isPrefixOf l1 then
    match (l1.drop 9).dropWhile py_isspace with
    | '=' :: rest => some rest
    | _ => none
  else none

/-- `re.search` with a `^`-anchored multiline pattern matches at the
first line that fits the pattern. -/
def find_httpsport_group : List (List Char) → Option (List Char)
  | [] => none
  | l :: ls =>
    match parse_httpsport_line l with
    | some rest => some rest
    | none => find_httpsport_group ls

/-- `str(SCOMPort)`. -/
def SCOMPortStr : List Char := (toString SCOMPort).toList

/-- `detect_scom_using_omiserver_conf()`: parse the first `httpsport =`
directive of the config text, replace commas by spaces, split on
spaces, and test whether `str(SCOMPort)` is one of the pieces. -/
def detect_scom_using_omiserver_conf (env : Env) : Bool :=
  match find_httpsport_group (splitLines env.omiserver_conf) with
  | some ports =>
    (splitOnCharL ' ' (ports.map (fun c => if c = ',' then ' ' else c))).any
      (fun p => p = SCOMPortStr)
  | none => false

/-- The final value of `scom_port_open` in `detect_scom_connection`.
Each probe function returns `True` or `False`, never `None`, and
`detect_scom_connection` returns as soon as a probe answers `False`;
so a later layer runs only when the earlier layer's tool was absent,
and the final value is the answer of the first layer whose files
exist (`none` when no layer could run). -/
def scom_port_determination (env : Env) : Except PyExc (Option Bool) :=
  if env.omsadmin_exists then
    (detect_scom_using_omsadmin env).map some
  else if env.omiconfigeditor_exists && env.omiserverconf_exists then
    (detect_scom_using_omiconfigeditor env).map some
  else if env.omiserverconf_exists then
    .ok (some (detect_scom_using_omiserver_conf env))
  else .ok none

/-- `exit_if_openssl_unavailable(operation)`: nonzero exit from
`which openssl` ends the process with `UnsupportedOpenSSL` via
`log_and_exit`. -/
def exit_if_openssl_unavailable (env : Env) : Outcome Unit :=
  match run_get_output env.which_openssl with
  | .error e => .raised e
  | .ok (exit_code, _) =>
    if exit_code ≠ 0 then .exited UnsupportedOpenSSL else .ok ()

/-- A line matching `SCOMCertIssuerRegex`
(`^[\s]*Issuer:[\s]*CN=SCX-Certificate/title=SCX<GUID>, DC=.*$`). -/
def scom_cert_issuer_line (line : List Char) : Bool :=
  let l1 := line.dropWhile py_isspace
  if ("Issuer:".toList).isPrefixOf l1 then
    let l2 := (l1.drop 7).dropWhile py_isspace
    if ("CN=SCX-Certificate/title=SCX".toList).isPrefixOf l2 then
      match guid_consume (l2.drop 28) with
      | some rest => (", DC=".toList).isPrefixOf rest
      | none => false
    else false
  else false

/-- `re.compile(SCOMCertIssuerRegex, re.M).search(cert_output)`. -/
def scom_cert_issuer_match (out : List Char) : Bool :=
  (splitLines out).any scom_cert_issuer_line

/-- The certificate half of `detect_scom_connection`: the final value
of `cert_signed_by_scom`.  If the certificate file exists, openssl must
be available (else the process exits with `UnsupportedOpenSSL`); the
certificate is signed by SCOM when the `openssl x509` read succeeds and
its output matches the issuer pattern.  A failing read or a missing
certificate file leaves `cert_signed_by_scom` as `False`. -/
def scom_cert_check (env : Env) : Outcome Bool :=
  if env.scomcert_exists then
    (exit_if_openssl_unavailable env).bind fun _ =>
      match run_get_output env.cert_probe with
      | .error e => .raised e
      | .ok (cert_exit_code, cert_output) =>
        if cert_exit_code = 0 then .ok (scom_cert_issuer_match cert_output)
        else .ok false
  else .ok false

def scom_conflict_err_msg : List Char :=
  ("This machine may already be connected to a System "
   ++ "Center Operations Manager server. Please set "
   ++ "stopOnMultipleConnections to false in public settings "
   ++ "or remove this property to allow connection to the Log "
   ++ "Analytics workspace. "
   ++ "(LINUXOMSAGENTEXTENSION_ERROR_MULTIPLECONNECTIONS)").toList

/-- `detect_scom_connection()`: determine `scom_port_open` through the
layered probes (returning at the first `False`, or when no layer could
answer), then check the certificate, and raise
`OMSAgentUnwantedMultipleConnectionsException` only when both the port
is open and the certificate is signed by a SCOM server. -/
def detect_scom_connection (env : Env) : Outcome Unit :=
  match scom_port_determination env with
  | .error e => .raised e
  | .ok none => .ok ()
  | .ok (some false) => .ok ()
  | .ok (some true) =>
    (scom_cert_check env).bind fun cert_signed_by_scom =>
      if cert_signed_by_scom then
        .raised (.multipleConnections scom_conflict_err_msg)
      else .ok ()

/-- The `for line in output.split('\n')` loop of
`detect_multiple_connections`: `none` when some line contains the
workspace id (the function returns there); otherwise
`some other_connection_exists`, which is `true` as soon as at least
one line was examined. -/
def scan_lines (workspace_id : List Char) :
    List (List Char) → Option Bool
  | [] => some false
  | l :: ls =>
    if containsSub workspace_id l then none
    else
      match scan_lines workspace_id ls with
      | none => none
      | some _ => some true

/-- The `os.walk` loop of `detect_multiple_connections`: `none` when
some sub-directory name equals the workspace id (return); otherwise
`some other_connection_exists`, set by sub-directories that are GUIDs
or named `scom`. -/
def scan_subdirs (workspace_id : List Char) :
    List (List Char) → Option Bool
  | [] => some false
  | d :: ds =>
    if d = workspace_id then none
    else
      match scan_subdirs workspace_id ds with
      | none => none
      | some b =>
        some (b || (guid_only_match d || d = "scom".toList))

/-- The first half of `detect_multiple_connections`: the candidate
scan.  `ok none` means the function returned (the target workspace is
already configured); `ok (some flag)` gives the final value of
`other_connection_exists`. -/
def other_connection_scan (workspace_id : List Char) (env : Env) :
    Except PyExc (Option Bool) :=
  if env.omsadmin_exists then
    match run_get_output env.workspace_check with
    | .error e => .error e
    | .ok (_, output) =>
      if lowerL (stripL output) ≠ "no workspace".toList then
        .ok (scan_lines workspace_id (splitLines output))
      else .ok (some false)
  else
    .ok (scan_subdirs workspace_id env.etc_oms_subdirs)

def multiple_connections_err_msg : List Char :=
  ("This machine is already connected to some other Log "
   ++ "Analytics workspace, please set "
   ++ "stopOnMultipleConnections to false in public "
   ++ "settings or remove this property, so this machine "
   ++ "can connect to new workspaces, also it means this "
   ++ "machine will get billed multiple times for each "
   ++ "workspace it report to. "
   ++ "(LINUXOMSAGENTEXTENSION_ERROR_MULTIPLECONNECTIONS)").toList

/-- `detect_multiple_connections(workspace_id)`: return when the
target workspace is already configured; raise the
multiple-connections exception when any other connection candidate was
recorded; call `detect_scom_connection` only otherwise. -/
def detect_multiple_connections (workspace_id : List Char) (env : Env) :
    Outcome Unit :=
  match other_connection_scan workspace_id env with
  | .error e => .raised e
  | .ok none => .ok ()
  | .ok (some true) =>
    .raised (.multipleConnections multiple_connections_err_msg)
  | .ok (some false) => detect_scom_connection env

/-! ### `enable` -/

structure PublicSettings where
  workspaceId : Option (List Char)
  stopOnMultipleConnections : Option Bool

structure ProtectedSettings where
  workspaceKey : Option (List Char)
  proxy : Option (List Char)
  vmResourceId : Option (List Char)

/-- Environment of the `enable` operation. -/
structure EnableEnv where
  /-- whether `is_vm_supported_for_extension` accepts the host -/
  vm_supported : Bool
  public_settings : Option PublicSettings
  protected_settings : Option ProtectedSettings
  /-- `os.path.exists(OMSAdminPath)` -/
  omsadmin_exists : Bool
  /-- results of the onboarding command's executions -/
  onboard_exec : Nat → Int × List Nat
  /-- result of `service_control restart` -/
  restart_exec : Int × List Nat

/-- `enable()`: distro gate, settings checks, workspace id / key
validation, onboarding-script existence check, then the onboarding
command under the retry engine (retries 5, `retry_onboarding`,
`raise_if_no_internet`), and a service restart when onboarding
succeeded. -/
def enable (env : EnableEnv) : Outcome Int :=
  if !env.vm_supported then .exited 51
  else
    match env.public_settings with
    | none => .raised .parameterMissing
    | some pub =>
      match env.protected_settings with
      | none => .raised .parameterMissing
      | some prot =>
        match pub.workspaceId with
        | none => .raised .parameterMissing
        | some workspaceId =>
          match prot.workspaceKey with
          | none => .raised .parameterMissing
          | some workspaceKey =>
            match check_workspace_id_and_key workspaceId workspaceKey with
            | .error e => .raised e
            | .ok () =>
              if !env.omsadmin_exists then
                .exited EnableCalledBeforeSuccessfulInstall
              else
                match run_command_with_retries env.onboard_exec 5
                    retry_onboarding (some raise_if_no_internet) with
                | .error e => .raised e
                | .ok stats =>
                  if stats.exit_code = 0 then
                    match run_get_output env.restart_exec with
                    | .error e => .raised e
                    | .ok _ => .ok stats.exit_code
                  else .ok stats.exit_code

/-! ### Engine lemmas -/

/-- The decoded form of an execution result with ASCII output. -/
def decoded_result (r : Int × List Nat) : Int × List Char :=
  (r.1, stripL (r.2.map Char.ofNat))

/-- Observation of the engine's execution count. -/
def engine_execs : Except PyExc RunStats → Option Nat
  | .ok s => some s.execs
  | .error _ => none

lemma run_get_output_ok (r : Int × List Nat)
    (h : (r.2.all (fun b => b ≤ 127)) = true) :
    run_get_output r = .ok (decoded_result r) := by
  simp [run_get_output, h, decoded_result]

lemma run_get_output_error (r : Int × List Nat) (e : PyExc)
    (h : run_get_output r = .error e) : e = .unicodeDecodeError := by
  unfold run_get_output at h
  by_cases hc : (r.2.all (fun b => b ≤ 127)) = true
  · simp [hc] at h
  · simp [hc] at h
    exact h.symm

lemma go_always_retry (exec : Nat → Int × List Nat)
    (p : Int → List Char → Bool × List Char)
    (h : ∀ k, ((exec k).2.all (fun b => b ≤ 127)) = true)
    (hp : ∀ ec out, (p ec out).1 = true) :
    ∀ (r idx : Nat) (last : Int × List Char) (execs sleeps : Nat),
      run_retries_go exec p (r + 1) idx last execs sleeps =
        .ok (decoded_result (exec (idx + r)), execs + r + 1, sleeps + r + 1) := by
  intro r
  induction r with
  | zero =>
    intro idx last execs sleeps
    rw [run_retries_go, run_get_output_ok _ (h idx)]
    simp only [hp, if_true]
    rw [run_retries_go]
    simp
  | succ r ih =>
    intro idx last execs sleeps
    rw [run_retries_go, run_get_output_ok _ (h idx)]
    simp only [hp, if_true]
    rw [ih (idx + 1) (decoded_result (exec idx)) (execs + 1) (sleeps + 1)]
    congr 2
    · congr 2
      omega
    · congr 1 <;> omega

lemma go_counts (exec : Nat → Int × List Nat)
    (p : Int → List Char → Bool × List Char)
    (h : ∀ k, ((exec k).2.all (fun b => b ≤ 127)) = true) :
    ∀ (r idx : Nat) (last : Int × List Char) (c : Nat),
      ∃ res e2 s2,
        run_retries_go exec p r idx last c c = .ok (res, e2, s2) ∧
        c ≤ e2 ∧ e2 ≤ c + r ∧
        (e2 = s2 + 1 ∨ (e2 = c + r ∧ s2 = c + r)) := by
  intro r
  induction r with
  | zero =>
    intro idx last c
    exact ⟨last, c, c, by rw [run_retries_go], le_refl c, by omega, Or.inr ⟨rfl, rfl⟩⟩
  | succ r ih =>
    intro idx last c
    by_cases hr : (p (decoded_result (exec idx)).1 (decoded_result (exec idx)).2).1 = true
    · obtain ⟨res, e2, s2, heq, hle1, hle2, hor⟩ :=
        ih (idx + 1) (decoded_result (exec idx)) (c + 1)
      refine ⟨res, e2, s2, ?_, by omega, by omega, ?_⟩
      · rw [run_retries_go, run_get_output_ok _ (h idx)]
        simp only [hr, if_true]
        exact heq
      · rcases hor with h1 | ⟨h1, h2⟩
        · exact Or.inl h1
        · exact Or.inr ⟨by omega, by omega⟩
    · refine ⟨decoded_result (exec idx), c + 1, c, ?_, by omega, by omega,
        Or.inl rfl⟩
      rw [run_retries_go, run_get_output_ok _ (h idx)]
      simp only [Bool.not_eq_true] at hr
      simp [hr]

/-- Byte values of an ASCII string, for concrete command outputs. -/
def str_bytes (s : String) : List Nat := s.toList.map Char.toNat

/-- Whether the engine returned normally. -/
def engine_ok : Except PyExc RunStats → Bool
  | .ok _ => true
  | .error _ => false

/-- C1: for every `retries = n ≥ 0` and a retry check that always
signals retry, `run_command_with_retries` executes the command exactly
`n + 1` times (the final exit code being the last execution's); and for
`retries = 0` exactly one execution occurs regardless of the policy. -/
theorem retry_engine_attempt_count (exec : Nat → Int × List Nat)
    (p q : Int → List Char → Bool × List Char) (n : Nat)
    (h : ∀ k, ((exec k).2.all (fun b => b ≤ 127)) = true)
    (hp : ∀ ec out, (p ec out).1 = true) :
    run_command_with_retries exec n p none = .ok ⟨(exec n).1, n + 1, n + 1⟩ ∧
    engine_execs (run_command_with_retries exec 0 q none) = some 1 := by
  constructor
  · unfold run_command_with_retries
    rw [go_always_retry exec p h hp n 0 (0, []) 0 0]
    simp [decoded_result]
  · obtain ⟨res, e2, s2, heq, hle1, hle2, hor⟩ := go_counts exec q h 1 0 (0, []) 0
    unfold run_command_with_retries
    rw [heq]
    have he : e2 = 1 := by omega
    obtain ⟨r1, r2⟩ := res
    simp [engine_execs, he]

theorem retry_engine_attempt_count_witness :
    run_command_with_retries (fun _ => (9, [97])) 4 (fun _ _ => (true, [])) none =
      .ok ⟨9, 5, 5⟩ ∧
    engine_execs (run_command_with_retries (fun _ => (9, [97])) 0
      (fun _ _ => (false, [])) none) = some 1 :=
  retry_engine_attempt_count (fun _ => (9, [97])) (fun _ _ => (true, []))
    (fun _ _ => (false, [])) 4 (fun _ => rfl) (fun _ _ => rfl)

/-- C8 (counterexample): with `retries = 0` and an always-retry policy
the engine sleeps once but executes only once, so that sleep is not
followed by a re-execution (that would require at least
`sleeps + 1 = 2` executions). -/
theorem retry_sleep_reexecution_counterexample :
    (run_command_with_retries (fun _ => (1, [97])) 0 (fun _ _ => (true, [])) none =
      .ok ⟨1, 1, 1⟩) ∧ ¬ (1 + 1 ≤ 1) :=
  ⟨rfl, by omega⟩

/-- C8 (amended): a sleep occurs only when the retry policy signaled
retry — in particular, a policy that declines on the first attempt
gives exactly one execution and no sleep — and every sleep except
possibly the last is followed by a re-execution: each run ends with
either one more execution than sleeps (the policy declined) or exactly
`retries + 1` executions and `retries + 1` sleeps (budget exhausted,
the final sleep not followed by a re-execution). -/
theorem retry_sleep_policy (exec : Nat → Int × List Nat)
    (p q : Int → List Char → Bool × List Char) (retries : Nat)
    (h : ∀ k, ((exec k).2.all (fun b => b ≤ 127)) = true)
    (hp : (p (exec 0).1 (stripL ((exec 0).2.map Char.ofNat))).1 = false) :
    run_command_with_retries exec retries p none = .ok ⟨(exec 0).1, 1, 0⟩ ∧
    (∃ stats, run_command_with_retries exec retries q none = .ok stats ∧
      (stats.execs = stats.sleeps + 1 ∨
        (stats.execs = retries + 1 ∧ stats.sleeps = retries + 1))) := by
  constructor
  · unfold run_command_with_retries
    rw [run_retries_go, run_get_output_ok _ (h 0)]
    have hp' : (p (decoded_result (exec 0)).1 (decoded_result (exec 0)).2).1 = false := hp
    simp only [hp', Bool.false_eq_true, if_false]
    simp [decoded_result]
  · obtain ⟨res, e2, s2, heq, hle1, hle2, hor⟩ :=
      go_counts exec q h (retries + 1) 0 (0, []) 0
    obtain ⟨r1, r2⟩ := res
    refine ⟨⟨r1, e2, s2⟩, ?_, ?_⟩
    · unfold run_command_with_retries
      rw [heq]
    · simpa using hor

theorem retry_sleep_policy_witness :
    run_command_with_retries (fun _ => (7, [97])) 3 (fun _ _ => (false, [])) none =
      .ok ⟨7, 1, 0⟩ :=
  (retry_sleep_policy (fun _ => (7, [97])) (fun _ _ => (false, []))
    (fun _ _ => (true, [])) 3 (fun _ => rfl) rfl).1

/-- C9 (counterexample): an execution result with a non-ASCII output
byte makes the engine raise (propagate) a `UnicodeDecodeError` instead
of returning an exit code. -/
theorem retry_engine_exception_counterexample :
    run_command_with_retries (fun _ => (0, [200])) 0 (fun _ _ => (false, [])) none =
      .error .unicodeDecodeError :=
  rfl

/-- C9 (amended): for executions whose raw outputs are ASCII-decodable
the engine raises nothing — with or without an exception-free final
check, it returns normally and communicates failure only through the
exit code; a non-ASCII output byte instead raises a fatal
`UnicodeDecodeError` that propagates out of the loop (there is no
"could not execute" result). -/
theorem retry_engine_no_exception (exec : Nat → Int × List Nat)
    (p : Int → List Char → Bool × List Char) (f : Int → List Char → Int)
    (retries : Nat)
    (h : ∀ k, ((exec k).2.all (fun b => b ≤ 127)) = true) :
    engine_ok (run_command_with_retries exec retries p none) = true ∧
    engine_ok (run_command_with_retries exec retries p
      (some (pure_final f))) = true := by
  obtain ⟨res, e2, s2, heq, -, -, -⟩ :=
    go_counts exec p h (retries + 1) 0 (0, []) 0
  obtain ⟨r1, r2⟩ := res
  constructor
  · unfold run_command_with_retries
    rw [heq]
    rfl
  · unfold run_command_with_retries
    rw [heq]
    rfl

theorem retry_engine_no_exception_witness :
    engine_ok (run_command_with_retries (fun _ => (2, [97])) 1
      (fun _ _ => (false, [])) none) = true ∧
    engine_ok (run_command_with_retries (fun _ => (2, [97])) 1
      (fun _ _ => (false, []))
      (some (pure_final final_check_if_dpkg_locked))) = true :=
  retry_engine_no_exception (fun _ => (2, [97])) (fun _ _ => (false, []))
    final_check_if_dpkg_locked 1 (fun _ => rfl)

/-- C6 (counterexample): an output matching the dpkg-lock pattern does
not make `final_check_if_dpkg_locked` return `DPKGLockedErrorCode`
when the raw exit code is 0 — `is_dpkg_locked` requires a nonzero
exit code. -/
theorem final_lock_code_counterexample :
    dpkg_lock_output_match ("dpkg was locked".toList) = true ∧
    final_check_if_dpkg_locked 0 ("dpkg was locked".toList) ≠
      DPKGLockedErrorCode := by
  constructor
  · decide
  · decide

/-- C6 (amended): after the loop exits the supplied final check is
applied exactly once to the last exit code and output and its result is
the engine's returned exit code; and `final_check_if_dpkg_locked`
returns `DPKGLockedErrorCode` whenever the last exit code is nonzero
and the output matches the package-manager-lock pattern. -/
theorem final_policy_applied_once (exec : Nat → Int × List Nat)
    (p : Int → List Char → Bool × List Char) (retries : Nat)
    (f : Int → List Char → Int) (res : Int × List Char) (execs sleeps : Nat)
    (hgo : run_retries_go exec p (retries + 1) 0 (0, []) 0 0 =
      .ok (res, execs, sleeps))
    (ec : Int) (out : List Char) (hec : ec ≠ 0)
    (hout : dpkg_lock_output_match out = true) :
    run_command_with_retries exec retries p (some (pure_final f)) =
      .ok ⟨f res.1 res.2, execs, sleeps⟩ ∧
    final_check_if_dpkg_locked ec out = DPKGLockedErrorCode := by
  constructor
  · unfold run_command_with_retries
    rw [hgo]
    obtain ⟨r1, r2⟩ := res
    rfl
  · simp [final_check_if_dpkg_locked, is_dpkg_locked, hec, hout]

theorem final_policy_applied_once_witness :
    run_command_with_retries (fun _ => (3, str_bytes "dpkg is locked")) 0
      (fun _ _ => (false, []))
      (some (pure_final final_check_if_dpkg_locked)) =
      .ok ⟨DPKGLockedErrorCode, 1, 0⟩ ∧
    final_check_if_dpkg_locked 3 ("dpkg was locked".toList) =
      DPKGLockedErrorCode := by
  have h := final_policy_applied_once (fun _ => (3, str_bytes "dpkg is locked"))
    (fun _ _ => (false, [])) 0 final_check_if_dpkg_locked
    (3, "dpkg is locked".toList) 1 0 rfl 3
    ("dpkg was locked".toList) (by decide) (by decide)
  rw [show final_check_if_dpkg_locked (3, ("dpkg is locked".toList)).1
      (3, ("dpkg is locked".toList)).2 = DPKGLockedErrorCode by decide] at h
  exact h

/-- C7: `raise_if_no_internet` raises
`OMSAgentCannotConnectToOMSException` exactly when the terminal exit
code equals the host-unresolvable code `EnableErrorResolvingHost = 7`,
returns every other exit code unchanged, and `main` maps that exception
to process exit code 55. -/
theorem no_internet_escalation (ec : Int) (out out2 : List Char)
    (h : ec ≠ EnableErrorResolvingHost) :
    raise_if_no_internet EnableErrorResolvingHost out =
      .error .cannotConnectToOMS ∧
    raise_if_no_internet ec out2 = .ok ec ∧
    EnableErrorResolvingHost = 7 ∧
    main_exception_exit_code .cannotConnectToOMS = 55 := by
  refine ⟨?_, ?_, rfl, rfl⟩
  · simp [raise_if_no_internet]
  · simp [raise_if_no_internet, h]

theorem no_internet_escalation_witness :
    raise_if_no_internet EnableErrorResolvingHost [] =
      .error .cannotConnectToOMS ∧
    raise_if_no_internet 3 [] = .ok 3 ∧
    EnableErrorResolvingHost = 7 ∧
    main_exception_exit_code .cannotConnectToOMS = 55 :=
  no_internet_escalation 3 [] [] (by decide)

/-! ### Detector lemmas -/

lemma mem_of_containsSub (pat l : List Char) (c : Char)
    (h : containsSub pat l = true) (hc : c ∈ pat) : c ∈ l := by
  induction l with
  | nil =>
    simp [containsSub, List.isEmpty_iff] at h
    subst h
    simp at hc
  | cons x xs ih =>
    simp only [containsSub, Bool.or_eq_true] at h
    rcases h with h | h
    · exact (List.isPrefixOf_iff_prefix.mp h).subset hc
    · exact List.mem_cons_of_mem x (ih h)

lemma splitLines_ne_nil (cs : List Char) : splitLines cs ≠ [] := by
  cases cs with
  | nil => simp [splitLines]
  | cons c cs =>
    unfold splitLines
    by_cases hc : c = '\n'
    · simp [hc]
    · simp only [hc, if_false]
      cases h : splitLines cs <;> simp

lemma mem_of_mem_splitLines (cs : List Char) (l : List Char) (c : Char)
    (hl : l ∈ splitLines cs) (hc : c ∈ l) : c ∈ cs := by
  induction cs generalizing l with
  | nil =>
    simp [splitLines] at hl
    subst hl
    simp at hc
  | cons x xs ih =>
    unfold splitLines at hl
    by_cases hx : x = '\n'
    · rw [if_pos hx] at hl
      rcases List.mem_cons.mp hl with h | h
      · subst h; simp at hc
      · exact List.mem_cons_of_mem _ (ih l h hc)
    · rw [if_neg hx] at hl
      cases hs : splitLines xs with
      | nil => exact absurd hs (splitLines_ne_nil xs)
      | cons l0 ls =>
        rw [hs] at hl
        rcases List.mem_cons.mp hl with h | h
        · subst h
          rcases List.mem_cons.mp hc with h2 | h2
          · rw [h2]
            exact List.mem_cons_self x xs
          · refine List.mem_cons_of_mem _ (ih l0 ?_ h2)
            rw [hs]
            exact List.mem_cons_self l0 ls
        · refine List.mem_cons_of_mem _ (ih l ?_ hc)
          rw [hs]
          exact List.mem_cons_of_mem l0 h

lemma mem_dropWhile_of_not (p : Char → Bool) (c : Char) (l : List Char)
    (hp : p c = false) (hc : c ∈ l) : c ∈ l.dropWhile p := by
  induction l with
  | nil => simp at hc
  | cons x xs ih =>
    rcases List.mem_cons.mp hc with h | h
    · subst h
      rw [List.dropWhile_cons, hp]
      simp
    · rw [List.dropWhile_cons]
      by_cases hx : p x = true
      · simp only [hx, if_true]
        exact ih h
      · simp only [hx, if_false]
        exact List.mem_cons_of_mem x h

lemma mem_stripL (c : Char) (cs : List Char)
    (hsp : py_isspace c = false) (hc : c ∈ cs) : c ∈ stripL cs := by
  unfold stripL
  rw [List.mem_reverse]
  apply mem_dropWhile_of_not _ _ _ hsp
  rw [List.mem_reverse]
  exact mem_dropWhile_of_not _ _ _ hsp hc

lemma hexRun_mem (n : Nat) (cs r : List Char) (c : Char)
    (h : hexRun n cs = some r) (hc : c ∈ r) : c ∈ cs := by
  induction n generalizing cs with
  | zero =>
    simp [hexRun] at h
    subst h
    exact hc
  | succ n ih =>
    cases cs with
    | nil => simp [hexRun] at h
    | cons x xs =>
      unfold hexRun at h
      by_cases hx : isHexDigit x = true
      · simp only [hx, if_true] at h
        exact List.mem_cons_of_mem x (ih xs h)
      · simp [hx] at h

lemma dashRun_shape (r r' : List Char) (h : dashRun r = some r') :
    r = '-' :: r' := by
  cases r with
  | nil => simp [dashRun] at h
  | cons y ys =>
    by_cases hy : y = '-'
    · subst hy
      simp [dashRun] at h
      rw [h]
    · simp [dashRun, hy] at h

lemma dash_mem_of_guid (id : List Char)
    (h : guid_only_match id = true) : '-' ∈ id := by
  unfold guid_only_match at h
  cases hg : guid_consume id with
  | none => rw [hg] at h; simp at h
  | some rest =>
    have hex : ∃ r1 r2, hexRun 8 id = some r1 ∧ dashRun r1 = some r2 := by
      unfold guid_consume at hg
      cases h1 : hexRun 8 id with
      | none => rw [h1] at hg; simp at hg
      | some r1 =>
        rw [h1] at hg
        simp only [Option.some_bind] at hg
        cases h2 : dashRun r1 with
        | none => rw [h2] at hg; simp at hg
        | some r2 => exact ⟨r1, r2, rfl, h2⟩
    obtain ⟨r1, r2, h1, h2⟩ := hex
    exact hexRun_mem 8 id r1 '-' h1
      (dashRun_shape r1 r2 h2 ▸ List.mem_cons_self '-' r2)

lemma sentinel_of_guid_line (id out l : List Char)
    (hg : guid_only_match id = true) (hl : l ∈ splitLines out)
    (hc : containsSub id l = true) :
    lowerL (stripL out) ≠ "no workspace".toList := by
  intro heq
  have hdash_l : '-' ∈ l :=
    mem_of_containsSub id l '-' hc (dash_mem_of_guid id hg)
  have hdash_out : '-' ∈ out := mem_of_mem_splitLines out l '-' hl hdash_l
  have hdash_strip : '-' ∈ stripL out :=
    mem_stripL '-' out (by decide) hdash_out
  have hmem : Char.toLower '-' ∈ lowerL (stripL out) :=
    List.mem_map_of_mem _ hdash_strip
  rw [heq] at hmem
  revert hmem
  decide

lemma scan_lines_none (id l0 : List Char) (lines : List (List Char))
    (hl0 : l0 ∈ lines) (hc : containsSub id l0 = true) :
    scan_lines id lines = none := by
  induction lines with
  | nil => simp at hl0
  | cons l ls ih =>
    unfold scan_lines
    rcases List.mem_cons.mp hl0 with he | he
    · subst he
      simp [hc]
    · by_cases hcl : containsSub id l = true
      · simp [hcl]
      · simp only [Bool.not_eq_true] at hcl
        simp [hcl, ih he]

lemma scan_subdirs_none (id : List Char) (ds : List (List Char))
    (hid : id ∈ ds) : scan_subdirs id ds = none := by
  induction ds with
  | nil => simp at hid
  | cons d ds ih =>
    unfold scan_subdirs
    rcases List.mem_cons.mp hid with he | he
    · simp [he]
    · by_cases hd : d = id
      · simp [hd]
      · simp [hd, ih he]

lemma scan_subdirs_some (id : List Char) (ds : List (List Char))
    (hid : id ∉ ds) : ∃ b, scan_subdirs id ds = some b := by
  induction ds with
  | nil => exact ⟨false, rfl⟩
  | cons d ds ih =>
    have hne : d ≠ id := by
      intro h
      exact hid (h ▸ List.mem_cons_self d ds)
    obtain ⟨b, hb⟩ := ih (fun h => hid (List.mem_cons_of_mem d h))
    refine ⟨b || (guid_only_match d || decide (d = "scom".toList)), ?_⟩
    unfold scan_subdirs
    rw [if_neg hne, hb]

lemma scan_subdirs_other (id d0 : List Char) (ds : List (List Char))
    (hid : id ∉ ds) (hd0 : d0 ∈ ds)
    (hflag : guid_only_match d0 = true ∨ d0 = "scom".toList) :
    scan_subdirs id ds = some true := by
  induction ds with
  | nil => simp at hd0
  | cons d ds ih =>
    have hne : d ≠ id := by
      intro h
      exact hid (h ▸ List.mem_cons_self d ds)
    have hid' : id ∉ ds := fun h => hid (List.mem_cons_of_mem d h)
    unfold scan_subdirs
    rw [if_neg hne]
    rcases List.mem_cons.mp hd0 with he | he
    · subst he
      obtain ⟨b, hb⟩ := scan_subdirs_some id ds hid'
      rw [hb]
      rcases hflag with hf | hf <;> simp [hf]
    · rw [ih hid' he]
      simp

/-- A host environment with nothing present, for building concrete
test environments. -/
def env0 : Env where
  omsadmin_exists := false
  workspace_check := (0, [])
  etc_oms_subdirs := []
  omsadmin_probe := (0, [])
  omiconfigeditor_exists := false
  omiserverconf_exists := false
  omiconfig_probe := (0, [])
  omiserver_conf := []
  scomcert_exists := false
  which_openssl := (0, [])
  cert_probe := (0, [])

/-- C4: whenever the enumeration of configured workspaces contains the
target workspace id — a line of the probe command's output contains it,
or it is a sub-directory of the agent config root —
`detect_multiple_connections` returns without raising (verdict `None`),
whatever else (SCOM entries included) the environment holds. -/
theorem target_workspace_already_configured (id : List Char)
    (env1 env2 : Env) (ec : Int) (out : List Char)
    (hg : guid_only_match id = true)
    (h1a : env1.omsadmin_exists = true)
    (h1b : run_get_output env1.workspace_check = .ok (ec, out))
    (h1c : ∃ l ∈ splitLines out, containsSub id l = true)
    (h2a : env2.omsadmin_exists = false)
    (h2b : id ∈ env2.etc_oms_subdirs) :
    detect_multiple_connections id env1 = .ok () ∧
    detect_multiple_connections id env2 = .ok () := by
  constructor
  · obtain ⟨l, hl, hc⟩ := h1c
    have hscan : other_connection_scan id env1 = .ok none := by
      unfold other_connection_scan
      rw [h1a]
      simp only [if_true]
      rw [h1b]
      dsimp only
      rw [if_pos (sentinel_of_guid_line id out l hg hl hc)]
      rw [scan_lines_none id l (splitLines out) hl hc]
    unfold detect_multiple_connections
    rw [hscan]
  · have hscan : other_connection_scan id env2 = .ok none := by
      unfold other_connection_scan
      rw [h2a]
      simp only [Bool.false_eq_true, if_false]
      rw [scan_subdirs_none id env2.etc_oms_subdirs h2b]
    unfold detect_multiple_connections
    rw [hscan]

def wid0 : List Char := "aaaaaaaa-bbbb-cccc-dddd-eeeeeeeeeeee".toList

theorem target_workspace_already_configured_witness :
    detect_multiple_connections wid0
      { env0 with
        omsadmin_exists := true
        workspace_check := (0, str_bytes
          ("Workspace(SCOM Workspace): scom\nPrimary Workspace: "
           ++ "aaaaaaaa-bbbb-cccc-dddd-eeeeeeeeeeee")) } = .ok () ∧
    detect_multiple_connections wid0
      { env0 with
        etc_oms_subdirs := ["scom".toList, wid0] } = .ok () :=
  target_workspace_already_configured wid0 _ _ 0
    (("Workspace(SCOM Workspace): scom\nPrimary Workspace: "
      ++ "aaaaaaaa-bbbb-cccc-dddd-eeeeeeeeeeee").toList)
    (by decide) rfl rfl (by decide) rfl (by decide)

/-- Environment of the C2 counterexample: another workspace is listed,
the target is not, and every SCOM probe source is benign (the
`omsadmin -o` probe would answer "not open"). -/
def c2_env : Env :=
  { env0 with
    omsadmin_exists := true
    workspace_check :=
      (0, str_bytes "Primary Workspace: 11111111-2222-3333-4444-555555555555")
    omsadmin_probe := (1, []) }

/-- C2 (counterexample): with another workspace configured and the
target absent, `detect_multiple_connections` raises the
multiple-connections exception immediately — even though
`detect_scom_connection` would have found nothing (it returns `ok` on
this same environment).  A candidate alone does produce the failure,
and SCOM verification is not reached. -/
theorem candidate_conflict_counterexample :
    detect_scom_connection c2_env = .ok () ∧
    detect_multiple_connections wid0 c2_env =
      .raised (.multipleConnections multiple_connections_err_msg) :=
  ⟨rfl, rfl⟩

/-- C2 (amended): when the candidate scan records an other-connection
candidate, `detect_multiple_connections` raises the
multiple-connections exception immediately, without invoking
`detect_scom_connection`; SCOM verification runs exactly when no
candidate was found; in particular (walk branch) a GUID-named or
`scom`-named sub-directory with the target absent raises immediately. -/
theorem candidate_conflict_immediate (id : List Char) (env1 env2 env3 : Env)
    (d0 : List Char)
    (h1 : other_connection_scan id env1 = .ok (some true))
    (h2 : other_connection_scan id env2 = .ok (some false))
    (h3a : env3.omsadmin_exists = false)
    (h3b : id ∉ env3.etc_oms_subdirs)
    (h3c : d0 ∈ env3.etc_oms_subdirs)
    (h3d : guid_only_match d0 = true ∨ d0 = "scom".toList) :
    detect_multiple_connections id env1 =
      .raised (.multipleConnections multiple_connections_err_msg) ∧
    detect_multiple_connections id env2 = detect_scom_connection env2 ∧
    detect_multiple_connections id env3 =
      .raised (.multipleConnections multiple_connections_err_msg) := by
  refine ⟨?_, ?_, ?_⟩
  · unfold detect_multiple_connections
    rw [h1]
  · unfold detect_multiple_connections
    rw [h2]
  · have hscan : other_connection_scan id env3 = .ok (some true) := by
      unfold other_connection_scan
      rw [h3a]
      simp only [Bool.false_eq_true, if_false]
      rw [scan_subdirs_other id d0 env3.etc_oms_subdirs h3b h3c h3d]
    unfold detect_multiple_connections
    rw [hscan]

theorem candidate_conflict_immediate_witness :
    detect_multiple_connections wid0 c2_env =
      .raised (.multipleConnections multiple_connections_err_msg) ∧
    detect_multiple_connections wid0 env0 = detect_scom_connection env0 ∧
    detect_multiple_connections wid0
      { env0 with etc_oms_subdirs := ["scom".toList] } =
      .raised (.multipleConnections multiple_connections_err_msg) :=
  candidate_conflict_immediate wid0 c2_env env0
    { env0 with etc_oms_subdirs := ["scom".toList] } ("scom".toList)
    rfl rfl rfl (by decide) (by decide) (Or.inr rfl)

/-- Environment of the C3 scenario: onboarding script absent,
config-editor and server-config present, probe answering
"unrecognized option" with a nonzero exit code, config text listing
port 1270. -/
def c3_env : Env :=
  { env0 with
    omiconfigeditor_exists := true
    omiserverconf_exists := true
    omiconfig_probe := (2, str_bytes "unrecognized option")
    omiserver_conf := "httpsport = 1270,8080".toList }

/-- C3 (counterexample): in the claimed scenario the config text alone
does say the port is open, yet the detector concludes "not open": the
config-editor layer's answer (`False`, since the output matches
neither guarded phrase and the exit code is nonzero) is final, and the
config-file source is never consulted. -/
theorem scom_probe_fallthrough_counterexample :
    detect_scom_using_omiserver_conf c3_env = true ∧
    scom_port_determination c3_env = .ok (some false) ∧
    scom_port_determination c3_env ≠ .ok (some true) := by
  refine ⟨by decide, rfl, ?_⟩
  rw [show scom_port_determination c3_env = .ok (some false) from rfl]
  simp

/-- C3 (amended): a probe tool's response is never "inconclusive": when
the config-editor exists (with the server-config file), its answer is
final — an output matching a guarded phrase such as `unknown option`
makes the probe return "not open" and `detect_scom_connection` return
immediately, without consulting the config file.  The config-file
parse (source c) determines the port open only when the config-editor
tool is absent. -/
theorem scom_probe_unrecognized_option (env1 env2 : Env) (ec : Int)
    (out : List Char)
    (h1a : env1.omsadmin_exists = false)
    (h1b : env1.omiconfigeditor_exists = true)
    (h1c : env1.omiserverconf_exists = true)
    (h1d : run_get_output env1.omiconfig_probe = .ok (ec, out))
    (h1e : containsSub ("unknown option".toList) (lowerL out) = true)
    (h2a : env2.omsadmin_exists = false)
    (h2b : env2.omiconfigeditor_exists = false)
    (h2c : env2.omiserverconf_exists = true)
    (h2d : detect_scom_using_omiserver_conf env2 = true) :
    scom_port_determination env1 = .ok (some false) ∧
    detect_scom_connection env1 = .ok () ∧
    scom_port_determination env2 = .ok (some true) := by
  have hdet : scom_port_determination env1 = .ok (some false) := by
    unfold scom_port_determination
    rw [h1a, h1b, h1c]
    simp only [Bool.false_eq_true, if_false, Bool.and_self, if_true]
    unfold detect_scom_using_omiconfigeditor
    rw [h1d]
    dsimp only
    have hg : (containsSub ("illegal option".toList) (lowerL out)
        || containsSub ("unknown option".toList) (lowerL out)) = true := by
      rw [h1e, Bool.or_true]
    rw [hg]
    simp only [Bool.not_true, Bool.false_eq_true, if_false]
    rfl
  refine ⟨hdet, ?_, ?_⟩
  · unfold detect_scom_connection
    rw [hdet]
  · unfold scom_port_determination
    rw [h2a, h2b, h2c]
    simp [h2d]

/-- Environment with the probe answering the guarded phrase
`unknown option`. -/
def c3b_env : Env :=
  { env0 with
    omiconfigeditor_exists := true
    omiserverconf_exists := true
    omiconfig_probe := (2, str_bytes "unknown option")
    omiserver_conf := "httpsport = 1270,8080".toList }

theorem scom_probe_unrecognized_option_witness :
    scom_port_determination c3b_env = .ok (some false) ∧
    detect_scom_connection c3b_env = .ok () ∧
    scom_port_determination
      { env0 with
        omiserverconf_exists := true
        omiserver_conf := "httpsport = 1270,8080".toList } =
      .ok (some true) :=
  scom_probe_unrecognized_option c3b_env
    { env0 with
      omiserverconf_exists := true
      omiserver_conf := "httpsport = 1270,8080".toList }
    2 ("unknown option".toList)
    rfl rfl rfl rfl (by decide) rfl rfl rfl (by decide)

lemma probe_error_shape (r : Int × List Nat) (e : PyExc)
    (h : (match run_get_output r with
      | .error e2 => Except.error e2
      | .ok (exit_code, output) =>
        if !(containsSub ("illegal option".toList) (lowerL output)
            || containsSub ("unknown option".toList) (lowerL output)) then
          if exit_code = 0 then Except.ok true else Except.ok false
        else Except.ok false) = .error e) :
    e = .unicodeDecodeError := by
  cases hr : run_get_output r with
  | error e2 =>
    rw [hr] at h
    cases h
    exact run_get_output_error _ _ hr
  | ok v =>
    obtain ⟨ec, out⟩ := v
    rw [hr] at h
    dsimp only at h
    split at h
    · split at h <;> cases h
    · cases h

lemma detect_scom_using_omsadmin_error (env : Env) (e : PyExc)
    (h : detect_scom_using_omsadmin env = .error e) :
    e = .unicodeDecodeError :=
  probe_error_shape env.omsadmin_probe e h

lemma detect_scom_using_omiconfigeditor_error (env : Env) (e : PyExc)
    (h : detect_scom_using_omiconfigeditor env = .error e) :
    e = .unicodeDecodeError :=
  probe_error_shape env.omiconfig_probe e h

lemma except_map_some_error {α : Type} (x : Except PyExc α) (e : PyExc)
    (h : Except.map some x = .error e) : x = .error e := by
  cases x with
  | error e2 => cases h; rfl
  | ok a => cases h

lemma scom_port_determination_error (env : Env) (e : PyExc)
    (h : scom_port_determination env = .error e) :
    e = .unicodeDecodeError := by
  unfold scom_port_determination at h
  split at h
  · exact detect_scom_using_omsadmin_error env e
      (except_map_some_error _ _ h)
  · split at h
    · exact detect_scom_using_omiconfigeditor_error env e
        (except_map_some_error _ _ h)
    · split at h <;> cases h

lemma scom_cert_check_raised (env : Env) (e : PyExc)
    (h : scom_cert_check env = .raised e) :
    e = .unicodeDecodeError := by
  unfold scom_cert_check at h
  split at h
  · unfold exit_if_openssl_unavailable at h
    cases hw : run_get_output env.which_openssl with
    | error e2 =>
      rw [hw] at h
      cases h
      exact run_get_output_error _ _ hw
    | ok v =>
      obtain ⟨wec, wout⟩ := v
      rw [hw] at h
      dsimp only at h
      split at h
      · cases h
      · simp only [Outcome.bind] at h
        cases hc : run_get_output env.cert_probe with
        | error e2 =>
          rw [hc] at h
          cases h
          exact run_get_output_error _ _ hc
        | ok v2 =>
          obtain ⟨cec, cout⟩ := v2
          rw [hc] at h
          dsimp only at h
          split at h <;> cases h
  · cases h

/-- Environment of the C5 counterexample: port open via the onboarding
script's probe, certificate file present, `which openssl` failing. -/
def c5_env : Env :=
  { env0 with
    omsadmin_exists := true
    omsadmin_probe := (0, [])
    scomcert_exists := true
    which_openssl := (1, []) }

/-- C5 (counterexample): when the SCOM port is determined open, the
certificate file exists, and openssl is unavailable, the install path
does not continue — the process exits with `UnsupportedOpenSSL` (60)
from `exit_if_openssl_unavailable`. -/
theorem scom_openssl_unavailable_counterexample :
    scom_port_determination c5_env = .ok (some true) ∧
    detect_scom_connection c5_env = .exited UnsupportedOpenSSL ∧
    Outcome.exited UnsupportedOpenSSL ≠ (Outcome.ok () : Outcome Unit) :=
  ⟨rfl, rfl, by decide⟩

/-- C5 (amended): `detect_scom_connection` raises the
multiple-connections exception only when both the port is determined
open and the certificate is determined signed by SCOM; a missing
certificate file, or a failing certificate read under available
openssl, counts as verification failure and detection returns normally
(no conflict); but when the certificate file exists and openssl is
unavailable, the process exits with `UnsupportedOpenSSL` instead of
continuing. -/
theorem scom_conflict_requires_port_and_cert (env1 env2 env3 env4 : Env)
    (msg oout wout cout : List Char) (cec wec : Int)
    (h1 : detect_scom_connection env1 =
      .raised (.multipleConnections msg))
    (h2a : scom_port_determination env2 = .ok (some true))
    (h2b : env2.scomcert_exists = false)
    (h3a : scom_port_determination env3 = .ok (some true))
    (h3b : env3.scomcert_exists = true)
    (h3c : run_get_output env3.which_openssl = .ok (0, oout))
    (h3d : run_get_output env3.cert_probe = .ok (cec, cout))
    (h3e : cec ≠ 0)
    (h4a : scom_port_determination env4 = .ok (some true))
    (h4b : env4.scomcert_exists = true)
    (h4c : run_get_output env4.which_openssl = .ok (wec, wout))
    (h4d : wec ≠ 0) :
    (scom_port_determination env1 = .ok (some true) ∧
      scom_cert_check env1 = .ok true ∧ msg = scom_conflict_err_msg) ∧
    detect_scom_connection env2 = .ok () ∧
    detect_scom_connection env3 = .ok () ∧
    detect_scom_connection env4 = .exited UnsupportedOpenSSL := by
  refine ⟨?_, ?_, ?_, ?_⟩
  · unfold detect_scom_connection at h1
    cases hp : scom_port_determination env1 with
    | error e =>
      rw [hp] at h1
      cases h1
      exact absurd (scom_port_determination_error env1 _ hp) (by simp)
    | ok o =>
      rw [hp] at h1
      match o with
      | none => cases h1
      | some false => cases h1
      | some true =>
        dsimp only at h1
        cases hc : scom_cert_check env1 with
        | raised e =>
          rw [hc] at h1
          simp only [Outcome.bind] at h1
          cases h1
          exact absurd (scom_cert_check_raised env1 _ hc) (by simp)
        | exited c =>
          rw [hc] at h1
          simp only [Outcome.bind] at h1
          cases h1
        | ok b =>
          rw [hc] at h1
          simp only [Outcome.bind] at h1
          cases b with
          | false => simp at h1
          | true =>
            simp only [if_true] at h1
            cases h1
            exact ⟨rfl, rfl, rfl⟩
  · unfold detect_scom_connection
    rw [h2a]
    dsimp only
    have hcert : scom_cert_check env2 = .ok false := by
      unfold scom_cert_check
      rw [h2b]
      simp
    rw [hcert]
    rfl
  · unfold detect_scom_connection
    rw [h3a]
    dsimp only
    have hcert : scom_cert_check env3 = .ok false := by
      unfold scom_cert_check
      rw [h3b]
      simp only [if_true]
      unfold exit_if_openssl_unavailable
      rw [h3c]
      dsimp only
      rw [if_neg (by simp)]
      simp only [Outcome.bind]
      rw [h3d]
      dsimp only
      rw [if_neg h3e]
    rw [hcert]
    rfl
  · unfold detect_scom_connection
    rw [h4a]
    dsimp only
    have hcert : scom_cert_check env4 = .exited UnsupportedOpenSSL := by
      unfold scom_cert_check
      rw [h4b]
      simp only [if_true]
      unfold exit_if_openssl_unavailable
      rw [h4c]
      dsimp only
      rw [if_pos h4d]
      rfl
    rw [hcert]
    rfl

/-- A fully SCOM-managed host: port open and certificate signed. -/
def scom_env : Env :=
  { env0 with
    omsadmin_exists := true
    omsadmin_probe := (0, [])
    scomcert_exists := true
    which_openssl := (0, str_bytes "/usr/bin/openssl")
    cert_probe := (0, str_bytes
      ("Certificate:\n        Issuer: CN=SCX-Certificate/title="
       ++ "SCX94a1f46d-2ced-4739-9b6a-1f06156ca4ac, DC=NEB-OM-1502733")) }

/-- Port open but no certificate file. -/
def port_only_env : Env :=
  { env0 with
    omsadmin_exists := true
    omsadmin_probe := (0, []) }

/-- Port open, certificate present, openssl available, but the
certificate read fails. -/
def cert_unreadable_env : Env :=
  { env0 with
    omsadmin_exists := true
    omsadmin_probe := (0, [])
    scomcert_exists := true
    which_openssl := (0, str_bytes "/usr/bin/openssl")
    cert_probe := (1, []) }

theorem scom_conflict_requires_port_and_cert_witness :
    (scom_port_determination scom_env = .ok (some true) ∧
      scom_cert_check scom_env = .ok true ∧
      scom_conflict_err_msg = scom_conflict_err_msg) ∧
    detect_scom_connection port_only_env = .ok () ∧
    detect_scom_connection cert_unreadable_env = .ok () ∧
    detect_scom_connection c5_env = .exited UnsupportedOpenSSL :=
  scom_conflict_requires_port_and_cert scom_env port_only_env
    cert_unreadable_env c5_env scom_conflict_err_msg
    ("/usr/bin/openssl".toList) [] [] 1 1
    rfl rfl rfl rfl rfl rfl rfl (by decide) rfl rfl rfl (by decide)

/-- The acceptance condition of the key check:
`base64.b64encode(base64.b64decode(key)) == key` (false when decoding
raises). -/
def b64_roundtrip (key : List Char) : Bool :=
  match b64decode_py2 key with
  | none => false
  | some bs => if b64encode bs = key then true else false

/-- C10: with a well-formed workspace id, `check_workspace_id_and_key`
accepts a workspace key exactly when re-encoding its decoding
reproduces the key; any other key — a failed decode included — raises
`OMSAgentInvalidParameterError`, and `enable` then aborts with that
error before the onboarding command runs. -/
theorem workspace_key_base64_validation (wid wkey badkey : List Char)
    (env : EnableEnv) (pub : PublicSettings) (prot : ProtectedSettings)
    (hg : guid_only_match wid = true)
    (hbad : b64_roundtrip badkey = false)
    (hvm : env.vm_supported = true)
    (hpub : env.public_settings = some pub)
    (hwid : pub.workspaceId = some wid)
    (hprot : env.protected_settings = some prot)
    (hkey : prot.workspaceKey = some badkey) :
    (check_workspace_id_and_key wid wkey = .ok () ↔
      b64_roundtrip wkey = true) ∧
    check_workspace_id_and_key wid badkey = .error .invalidParameter ∧
    enable env = .raised .invalidParameter := by
  have hidok : check_workspace_id wid = .ok () := by
    unfold check_workspace_id
    rw [if_pos hg]
  have herr : check_workspace_id_and_key wid badkey =
      .error .invalidParameter := by
    unfold check_workspace_id_and_key
    rw [hidok]
    unfold b64_roundtrip at hbad
    cases hd : b64decode_py2 badkey with
    | none => rfl
    | some bs =>
      rw [hd] at hbad
      dsimp only at hbad ⊢
      by_cases he : b64encode bs = badkey
      · rw [if_pos he] at hbad
        cases hbad
      · rw [if_neg he]
  refine ⟨?_, herr, ?_⟩
  · unfold check_workspace_id_and_key
    rw [hidok]
    unfold b64_roundtrip
    cases hd : b64decode_py2 wkey with
    | none => simp
    | some bs =>
      dsimp only
      by_cases he : b64encode bs = wkey
      · simp [he]
      · simp [he]
  · unfold enable
    rw [hvm]
    simp only [Bool.not_true, Bool.false_eq_true, if_false]
    rw [hpub]
    dsimp only
    rw [hprot]
    dsimp only
    rw [hwid]
    dsimp only
    rw [hkey]
    dsimp only
    rw [herr]

def wkey0 : List Char := "aGVsbG8=".toList

def badkey0 : List Char := "YQ".toList

def enable_env0 : EnableEnv where
  vm_supported := true
  public_settings := some ⟨some wid0, some true⟩
  protected_settings := some ⟨some badkey0, none, none⟩
  omsadmin_exists := true
  onboard_exec := fun _ => (0, [])
  restart_exec := (0, [])

theorem workspace_key_base64_validation_witness :
    (check_workspace_id_and_key wid0 wkey0 = .ok () ↔
      b64_roundtrip wkey0 = true) ∧
    check_workspace_id_and_key wid0 badkey0 = .error .invalidParameter ∧
    enable enable_env0 = .raised .invalidParameter :=
  workspace_key_base64_validation wid0 wkey0 badkey0 enable_env0
    ⟨some wid0, some true⟩ ⟨some badkey0, none, none⟩
    (by decide) (by decide) rfl rfl rfl rfl rfl
